import Mathlib

/-!
Verification of `pkg/data/events.go` (the change-record description and
application core of the adc tool).

The Go source is shallowly embedded below.  Pure string formatting and the
dispatch logic are translated directly from `events.go`.  Two collaborators of
that file are not part of the repository source tree and are therefore
modelled from the specification, each marked `Modelled from the spec:` in its
doc comment:
  * the concrete resource types (`types.Service`, `types.Route` from the
    apisix types package) together with their JSON serialization
    (`json.MarshalIndent`), and
  * the line-diff library (`myers.ComputeEdits` / `gotextdiff.ToUnified`).

Go `error` values are modelled by `Option GoError` (`none` = nil error);
`pkg/errors.Wrap` becomes `errorsWrap`.  Go panics (reflection on a non-struct
value, failed type assertions) are modelled as explicit `goPanic` outcomes.
-/

namespace ADC

/-- A Go error value: either a base error or an error produced by
`errors.Wrap`, which keeps the cause. -/
inductive GoError
  | base (msg : String)
  | wrapped (msg : String) (cause : GoError)
deriving DecidableEq, Repr

/-- `errors.Wrap err msg` from github.com/pkg/errors: returns nil when the
error is nil, otherwise annotates it with `msg`, preserving the cause. -/
def errorsWrap (msg : String) : Option GoError → Option GoError
  | none => none
  | some e => some (.wrapped msg e)

/-- Modelled from the spec: the concrete resource type `types.Service` is not
under `src/`.  Per the data model, every resource value carries a retrievable
`Name` identifier field; the remaining fields are kept abstractly as a list of
key/value pairs. -/
structure Service where
  Name : String
  rest : List (String × String)
deriving DecidableEq, Repr

/-- Modelled from the spec: the concrete resource type `types.Route`, shaped
like `Service` (a `Name` field plus further fields). -/
structure Route where
  Name : String
  rest : List (String × String)
deriving DecidableEq, Repr

/-- A dynamic (`interface\x7b\x7d`) value stored in an `Event`: a pointer to a
service, a pointer to a route, or some other value (nil, a function, ...) that
is neither a struct with a `Name` field nor JSON-serializable. -/
inductive GoValue
  | service (s : Service)
  | route (r : Route)
  | unsupported (tag : String)
deriving DecidableEq, Repr

/-- Whether a dynamic value holds a `*types.Service`. -/
def GoValue.isService : GoValue → Bool
  | .service _ => true
  | _ => false

/-- Whether a dynamic value holds a `*types.Route`. -/
def GoValue.isRoute : GoValue → Bool
  | .route _ => true
  | _ => false

/-- `CreateOption = iota` in events.go. -/
def CreateOption : Int := 0

/-- `DeleteOption` in events.go. -/
def DeleteOption : Int := 1

/-- `UpdateOption` in events.go. -/
def UpdateOption : Int := 2

/-- `ServiceResourceType` in events.go. -/
def ServiceResourceType : String := "service"

/-- `RouteResourceType` in events.go. -/
def RouteResourceType : String := "route"

/-- The `Event` struct of events.go: resource type tag, operation option,
old value and (new) value. -/
structure Event where
  resourceType : String
  option : Int
  oldValue : GoValue
  value : GoValue
deriving DecidableEq, Repr

/-- `getName` from events.go: reflective lookup of the string field named
`field` on `value` (dereferencing a pointer first).  On a service or route
struct, `FieldByName` finds the field when it is named `Name` (their only
string field here); on a missing field `reflect.Value.String` yields the
literal `"<invalid Value>"`.  On a non-struct dynamic value `FieldByName`
panics, modelled by `none`. -/
def getName (field : String) (value : GoValue) : Option String :=
  match value with
  | .service s => some (if field = "Name" then s.Name else "<invalid Value>")
  | .route r => some (if field = "Name" then r.Name else "<invalid Value>")
  | .unsupported _ => none

/-- Modelled from the spec: the canonical, indented textual form of a record
of fields, standing in for `json.MarshalIndent(v, "", "\t")` applied to a
resource struct. -/
def renderJSON (pairs : List (String × String)) : String :=
  "\x7b\n" ++ String.join (pairs.map (fun p => "\t\"" ++ p.1 ++ "\": \"" ++ p.2 ++ "\",\n")) ++ "\x7d"

/-- Modelled from the spec: `json.MarshalIndent` on the dynamic value of an
event.  Serialization of a proper resource value is deterministic and always
succeeds; an unsupported dynamic value fails the way encoding/json does. -/
def marshalIndent : GoValue → Except GoError String
  | .service s => .ok (renderJSON (("name", s.Name) :: s.rest))
  | .route r => .ok (renderJSON (("name", r.Name) :: r.rest))
  | .unsupported tag => .error (.base ("json: unsupported type: " ++ tag))

/-- One operation of a line-based edit script. -/
inductive DiffOp
  | keep (l : String)
  | del (l : String)
  | ins (l : String)
deriving DecidableEq, Repr

/-- Number of insertions and deletions in an edit script. -/
def editCost : List DiffOp → Nat
  | [] => 0
  | .keep _ :: rest => editCost rest
  | .del _ :: rest => 1 + editCost rest
  | .ins _ :: rest => 1 + editCost rest

/-- Modelled from the spec: a line-based, longest-common-subsequence-style
(Myers) diff between two line lists — a shortest edit script, standing in for
`myers.ComputeEdits` of hexops/gotextdiff. -/
def diffOps (xs ys : List String) : List DiffOp :=
  match xs, ys with
  | [], [] => []
  | [], b :: bs => .ins b :: diffOps [] bs
  | a :: as, [] => .del a :: diffOps as []
  | a :: as, b :: bs =>
    if a = b then .keep a :: diffOps as bs
    else
      let d1 := diffOps as (b :: bs)
      let d2 := diffOps (a :: as) bs
      if editCost d1 ≤ editCost d2 then .del a :: d1 else .ins b :: d2
termination_by xs.length + ys.length
decreasing_by
  all_goals simp
  omega

/-- Lines of a text, as the diff operates on them. -/
def splitLines (s : String) : List String := s.splitOn "\n"

/-- Modelled from the spec: `myers.ComputeEdits` — the line-based shortest
edit script between two texts. -/
def computeEdits (oldText newText : String) : List DiffOp :=
  diffOps (splitLines oldText) (splitLines newText)

/-- Whether an edit script contains any insertion or deletion. -/
def hasChange : List DiffOp → Bool
  | [] => false
  | .keep _ :: rest => hasChange rest
  | .del _ :: _ => true
  | .ins _ :: _ => true

/-- Hunk lines of a unified diff: context lines prefixed by a space, deleted
lines by `-`, inserted lines by `+`. -/
def renderHunk (ops : List DiffOp) : String :=
  String.join (ops.map (fun op =>
    match op with
    | .keep l => " " ++ l ++ "\n"
    | .del l => "-" ++ l ++ "\n"
    | .ins l => "+" ++ l ++ "\n"))

/-- Modelled from the spec: `gotextdiff.ToUnified` printed with `fmt.Sprint` —
the unified-diff text block with header labels for the old (`fromLabel`) and
new (`toLabel`) text, empty when the edit script holds no change. -/
def toUnified (fromLabel toLabel : String) (ops : List DiffOp) : String :=
  if hasChange ops then
    "--- " ++ fromLabel ++ "\n+++ " ++ toLabel ++ "\n" ++ renderHunk ops
  else ""

/-- Result of `Event.Output`: the returned `(string, error)` pair, or a Go
panic (reflective name lookup on a non-struct value). -/
inductive OutputOutcome
  | ret (s : String) (err : Option GoError)
  | goPanic (msg : String)
deriving DecidableEq, Repr

/-- `Event.Output` from events.go, translated branch by branch:
create and delete format one line (the delete name comes from the old value);
update serializes both values with a trailing newline appended, computes the
Myers edits, renders the unified diff with labels `remote`/`local`, and
prefixes the `updating` header line; any other option falls through the
switch and returns `("", nil)`.  A serialization error is returned as
`("", err)`. -/
def Event.Output (e : Event) : OutputOutcome :=
  if e.option = CreateOption then
    match getName "Name" e.value with
    | some n => .ret ("creating " ++ e.resourceType ++ ": \"" ++ n ++ "\"") none
    | none => .goPanic "reflect: FieldByName on non-struct value"
  else if e.option = DeleteOption then
    match getName "Name" e.oldValue with
    | some n => .ret ("deleting " ++ e.resourceType ++ ": \"" ++ n ++ "\"") none
    | none => .goPanic "reflect: FieldByName on non-struct value"
  else if e.option = UpdateOption then
    match marshalIndent e.oldValue with
    | .error er => .ret "" (some er)
    | .ok remoteText =>
      match marshalIndent e.value with
      | .error er => .ret "" (some er)
      | .ok localText =>
        let remote := remoteText ++ "\n"
        let locl := localText ++ "\n"
        let diff := toUnified "remote" "local" (computeEdits remote locl)
        match getName "Name" e.value with
        | some n =>
          .ret ("updating " ++ e.resourceType ++ ": \"" ++ n ++ "\"\n" ++ diff) none
        | none => .goPanic "reflect: FieldByName on non-struct value"
  else .ret "" none

/-- One call issued to a resource sub-client of the cluster. -/
inductive Call
  | serviceCreate (s : Service)
  | serviceDelete (name : String)
  | serviceUpdate (s : Service)
  | routeCreate (r : Route)
  | routeDelete (name : String)
  | routeUpdate (r : Route)
deriving DecidableEq, Repr

/-- The remote-system client handle (`apisix.Cluster`): per resource kind, a
sub-client whose operations return an error (the created/updated values that
accompany a nil error are discarded by events.go and therefore not modelled). -/
structure Cluster where
  serviceCreate : Service → Option GoError
  serviceDelete : String → Option GoError
  serviceUpdate : Service → Option GoError
  routeCreate : Route → Option GoError
  routeDelete : String → Option GoError
  routeUpdate : Route → Option GoError

/-- Result of applying an event: the sub-client calls issued (in order) and
the returned error, or a Go panic (failed type assertion / reflective lookup
on a non-struct value). -/
inductive ApplyOutcome
  | ok (calls : List Call) (err : Option GoError)
  | goPanic (msg : String)
deriving DecidableEq, Repr

/-- `applyService` from events.go.  Create asserts the dynamic value to
`*types.Service` and calls the service sub-client's Create; Delete calls
Delete with `getName("Name", value)`; Update asserts and calls Update and
returns its error directly (the early `return err` in the source — this error
bypasses the final wrap); every other path returns
`errors.Wrap(err, "failed to apply service")` where an unknown option leaves
`err` nil. -/
def applyService (cluster : Cluster) (option : Int) (value : GoValue) : ApplyOutcome :=
  if option = CreateOption then
    match value with
    | .service s => .ok [.serviceCreate s] (errorsWrap "failed to apply service" (cluster.serviceCreate s))
    | _ => .goPanic "interface conversion: not *types.Service"
  else if option = DeleteOption then
    match getName "Name" value with
    | some n => .ok [.serviceDelete n] (errorsWrap "failed to apply service" (cluster.serviceDelete n))
    | none => .goPanic "reflect: FieldByName on non-struct value"
  else if option = UpdateOption then
    match value with
    | .service s => .ok [.serviceUpdate s] (cluster.serviceUpdate s)
    | _ => .goPanic "interface conversion: not *types.Service"
  else .ok [] (errorsWrap "failed to apply service" none)

/-- `applyRoute` from events.go: like `applyService`, but every branch falls
through to `errors.Wrap(err, "failed to apply route")` (no early return). -/
def applyRoute (cluster : Cluster) (option : Int) (value : GoValue) : ApplyOutcome :=
  if option = CreateOption then
    match value with
    | .route r => .ok [.routeCreate r] (errorsWrap "failed to apply route" (cluster.routeCreate r))
    | _ => .goPanic "interface conversion: not *types.Route"
  else if option = DeleteOption then
    match getName "Name" value with
    | some n => .ok [.routeDelete n] (errorsWrap "failed to apply route" (cluster.routeDelete n))
    | none => .goPanic "reflect: FieldByName on non-struct value"
  else if option = UpdateOption then
    match value with
    | .route r => .ok [.routeUpdate r] (errorsWrap "failed to apply route" (cluster.routeUpdate r))
    | _ => .goPanic "interface conversion: not *types.Route"
  else .ok [] (errorsWrap "failed to apply route" none)

/-- `Event.Apply` from events.go: dispatch on the resource type to
`applyService` or `applyRoute`, passing `e.Option` and `e.Value`; any other
resource type returns nil without calling anything. -/
def Event.Apply (e : Event) (cluster : Cluster) : ApplyOutcome :=
  if e.resourceType = ServiceResourceType then applyService cluster e.option e.value
  else if e.resourceType = RouteResourceType then applyRoute cluster e.option e.value
  else .ok [] none

/-- The error component of an apply outcome (a panic returns no error). -/
def applyErr : ApplyOutcome → Option GoError
  | .ok _ err => err
  | .goPanic _ => none

/-- The error component of an output outcome. -/
def outErr : OutputOutcome → Option GoError
  | .ret _ err => err
  | .goPanic _ => none

/-- Whether an error is non-nil and wrapped at the outside with message
`msg`. -/
def isWrappedWith (msg : String) : Option GoError → Bool
  | some (.wrapped m _) => m = msg
  | _ => false

/-- A cluster on which every operation succeeds. -/
def nilCluster : Cluster :=
  ⟨fun _ => none, fun _ => none, fun _ => none, fun _ => none, fun _ => none, fun _ => none⟩

/-- A cluster on which every operation fails with the base error `"boom"`. -/
def boomCluster : Cluster :=
  ⟨fun _ => some (.base "boom"), fun _ => some (.base "boom"), fun _ => some (.base "boom"),
   fun _ => some (.base "boom"), fun _ => some (.base "boom"), fun _ => some (.base "boom")⟩

/-- The caller-enforced invariant of the data model, as far as apply needs it
not to panic: the dynamic value is of the resource type named by the kind on
create and update, and exposes a name field on delete. -/
def valueOk (e : Event) : Bool :=
  if e.resourceType = ServiceResourceType then
    if e.option = CreateOption then e.value.isService
    else if e.option = DeleteOption then (getName "Name" e.value).isSome
    else if e.option = UpdateOption then e.value.isService
    else true
  else if e.resourceType = RouteResourceType then
    if e.option = CreateOption then e.value.isRoute
    else if e.option = DeleteOption then (getName "Name" e.value).isSome
    else if e.option = UpdateOption then e.value.isRoute
    else true
  else true

/-- Follows the amended claim's words (refinement model, not translated from
the source): the expected error of apply on a record — the underlying
sub-client error wrapped with the static message "failed to apply <kind>"
with the cause preserved, except that a service update error is returned
bare, and an unknown kind or option yields nil. -/
def wrappedErrModel (cluster : Cluster) (e : Event) : Option GoError :=
  if e.resourceType = ServiceResourceType then
    if e.option = CreateOption then
      match e.value with
      | .service s => errorsWrap "failed to apply service" (cluster.serviceCreate s)
      | _ => none
    else if e.option = DeleteOption then
      match getName "Name" e.value with
      | some n => errorsWrap "failed to apply service" (cluster.serviceDelete n)
      | none => none
    else if e.option = UpdateOption then
      match e.value with
      | .service s => cluster.serviceUpdate s
      | _ => none
    else none
  else if e.resourceType = RouteResourceType then
    if e.option = CreateOption then
      match e.value with
      | .route r => errorsWrap "failed to apply route" (cluster.routeCreate r)
      | _ => none
    else if e.option = DeleteOption then
      match getName "Name" e.value with
      | some n => errorsWrap "failed to apply route" (cluster.routeDelete n)
      | none => none
    else if e.option = UpdateOption then
      match e.value with
      | .route r => errorsWrap "failed to apply route" (cluster.routeUpdate r)
      | _ => none
    else none
  else none

/-! Helper lemmas about the diff model. -/

theorem diffOps_self (xs : List String) : diffOps xs xs = xs.map DiffOp.keep := by
  induction xs with
  | nil => simp [diffOps]
  | cons a as ih => simp [diffOps, ih]

theorem hasChange_map_keep (xs : List String) : hasChange (xs.map DiffOp.keep) = false := by
  induction xs with
  | nil => rfl
  | cons a as ih => simpa [hasChange] using ih

theorem toUnified_self (f t s : String) : toUnified f t (computeEdits s s) = "" := by
  simp [toUnified, computeEdits, diffOps_self, hasChange_map_keep]

/-! Theorems settling the claims. -/

/-- Claim C5: for every Create record whose new value exposes a name,
describe returns exactly the single line `creating <kind>: "<name>"` with the
name read from the new value, and a nil error. -/
theorem output_create_message (e : Event) (n : String)
    (h1 : e.option = CreateOption) (h2 : getName "Name" e.value = some n) :
    e.Output = .ret ("creating " ++ e.resourceType ++ ": \"" ++ n ++ "\"") none := by
  simp [Event.Output, CreateOption, DeleteOption, UpdateOption, h1, h2]

theorem output_create_message_witness :
    (Event.mk "service" CreateOption (.unsupported "nil") (.service ⟨"svc-a", []⟩)).option
        = CreateOption ∧
    getName "Name" (Event.mk "service" CreateOption (.unsupported "nil")
        (.service ⟨"svc-a", []⟩)).value = some "svc-a" ∧
    (Event.mk "service" CreateOption (.unsupported "nil") (.service ⟨"svc-a", []⟩)).Output
        = .ret ("creating " ++ "service" ++ ": \"" ++ "svc-a" ++ "\"") none :=
  ⟨rfl, rfl, output_create_message _ "svc-a" rfl rfl⟩

/-- Claim C6: for every Delete record whose old value exposes a name,
describe returns the line `deleting <kind>: "<name>"` with the name read from
the old value, and a nil error. -/
theorem output_delete_message (e : Event) (n : String)
    (h1 : e.option = DeleteOption) (h2 : getName "Name" e.oldValue = some n) :
    e.Output = .ret ("deleting " ++ e.resourceType ++ ": \"" ++ n ++ "\"") none := by
  simp [Event.Output, CreateOption, DeleteOption, UpdateOption, h1, h2]

theorem output_delete_message_witness :
    (Event.mk "route" DeleteOption (.route ⟨"r-old", []⟩) (.unsupported "nil")).option
        = DeleteOption ∧
    getName "Name" (Event.mk "route" DeleteOption (.route ⟨"r-old", []⟩)
        (.unsupported "nil")).oldValue = some "r-old" ∧
    (Event.mk "route" DeleteOption (.route ⟨"r-old", []⟩) (.unsupported "nil")).Output
        = .ret ("deleting " ++ "route" ++ ": \"" ++ "r-old" ++ "\"") none :=
  ⟨rfl, rfl, output_delete_message _ "r-old" rfl rfl⟩

/-- Claim C10: describing a record whose option is none of Create, Delete and
Update falls through the switch and returns the empty string with a nil
error. -/
theorem output_unknown_option_empty (e : Event)
    (h1 : e.option ≠ CreateOption) (h2 : e.option ≠ DeleteOption)
    (h3 : e.option ≠ UpdateOption) :
    e.Output = .ret "" none := by
  simp [Event.Output, h1, h2, h3]

theorem output_unknown_option_empty_witness :
    ((3 : Int) ≠ CreateOption ∧ (3 : Int) ≠ DeleteOption ∧ (3 : Int) ≠ UpdateOption) ∧
    (Event.mk "service" 3 (.service ⟨"a", []⟩) (.service ⟨"b", []⟩)).Output
        = .ret "" none :=
  ⟨⟨by decide, by decide, by decide⟩,
    output_unknown_option_empty _ (by decide) (by decide) (by decide)⟩

/-- Claim C3: applying a record whose resource type is neither service nor
route returns a nil error and issues no sub-client call, on every cluster. -/
theorem apply_unknown_kind_noop (e : Event) (cluster : Cluster)
    (h1 : e.resourceType ≠ ServiceResourceType)
    (h2 : e.resourceType ≠ RouteResourceType) :
    e.Apply cluster = .ok [] none := by
  simp [Event.Apply, h1, h2]

theorem apply_unknown_kind_noop_witness :
    ("consumer" ≠ ServiceResourceType ∧ "consumer" ≠ RouteResourceType) ∧
    (Event.mk "consumer" CreateOption (.unsupported "nil") (.unsupported "nil")).Apply
        boomCluster = .ok [] none :=
  ⟨⟨by decide, by decide⟩, apply_unknown_kind_noop _ _ (by decide) (by decide)⟩

/-- Claim C9: apply never reads a record's old value — two records agreeing
on resource type, option and new value produce the same apply outcome (same
sub-client calls with the same arguments, same error) on every cluster. -/
theorem apply_ignores_old_value (e₁ e₂ : Event) (cluster : Cluster)
    (h1 : e₁.resourceType = e₂.resourceType) (h2 : e₁.option = e₂.option)
    (h3 : e₁.value = e₂.value) :
    e₁.Apply cluster = e₂.Apply cluster := by
  simp [Event.Apply, h1, h2, h3]

theorem apply_ignores_old_value_witness :
    ((Event.mk "service" CreateOption (.service ⟨"old-a", []⟩) (.service ⟨"new", []⟩)).Apply
        boomCluster
      = (Event.mk "service" CreateOption (.service ⟨"old-b", []⟩) (.service ⟨"new", []⟩)).Apply
        boomCluster) :=
  apply_ignores_old_value _ _ _ rfl rfl rfl

/-- Claim C1 (the code at the claimed input): applying a service Delete
record whose old value is named "old-svc" and whose new value is named
"new-svc" calls the service sub-client's delete with "new-svc" — `Apply`
passes `e.Value` down, so the delete name is read from the record's value,
not from its old value as the spec (and `Output`'s own delete branch)
require. -/
theorem apply_delete_reads_new_value :
    (Event.mk ServiceResourceType DeleteOption (.service ⟨"old-svc", []⟩)
        (.service ⟨"new-svc", []⟩)).Apply nilCluster
      = .ok [.serviceDelete "new-svc"] none := by
  decide

/-- Claim C2 (counterexample): on a service Update record whose sub-client
update fails with the base error "boom", apply returns that error bare — not
wrapped with "failed to apply service" as the claim states for every
operation of a known kind (the early `return err` in `applyService`'s update
case bypasses the wrap). -/
theorem service_update_error_unwrapped :
    applyErr ((Event.mk ServiceResourceType UpdateOption (.service ⟨"s1", []⟩)
        (.service ⟨"s1", []⟩)).Apply boomCluster) = some (.base "boom") ∧
    isWrappedWith "failed to apply service"
      (applyErr ((Event.mk ServiceResourceType UpdateOption (.service ⟨"s1", []⟩)
        (.service ⟨"s1", []⟩)).Apply boomCluster)) = false := by
  constructor <;> decide

/-- Claim C2 (amended): on every record of a known resource kind whose value
fits the kind, the error apply returns is the underlying sub-client error
wrapped with the static message "failed to apply <kind>" (cause preserved)
for create and delete of both kinds and for route update, while a service
update error is returned unwrapped. -/
theorem apply_error_wrapping (e : Event) (cluster : Cluster) (h : valueOk e = true) :
    applyErr (e.Apply cluster) = wrappedErrModel cluster e := by
  obtain ⟨rt, opt, ov, v⟩ := e
  simp only [valueOk] at h
  simp only [Event.Apply, wrappedErrModel, applyService, applyRoute]
  split_ifs at h ⊢ <;>
    cases v <;>
      simp_all [applyErr, GoValue.isService, GoValue.isRoute, getName, errorsWrap]

theorem apply_error_wrapping_witness :
    valueOk (Event.mk "route" CreateOption (.unsupported "nil") (.route ⟨"r1", []⟩)) = true ∧
    applyErr ((Event.mk "route" CreateOption (.unsupported "nil")
        (.route ⟨"r1", []⟩)).Apply boomCluster)
      = wrappedErrModel boomCluster
          (Event.mk "route" CreateOption (.unsupported "nil") (.route ⟨"r1", []⟩)) ∧
    wrappedErrModel boomCluster
        (Event.mk "route" CreateOption (.unsupported "nil") (.route ⟨"r1", []⟩))
      = some (.wrapped "failed to apply route" (.base "boom")) :=
  ⟨rfl, apply_error_wrapping _ _ rfl, rfl⟩

/-- Claim C4: describing an Update record whose old and new values are
structurally equal yields exactly the updating header line naming the new
value with an empty diff block after it (the diff of a text with itself holds
no hunk lines), and a nil error. -/
theorem output_update_equal_values_empty_diff (e : Event) (t n : String)
    (h1 : e.option = UpdateOption) (h2 : e.oldValue = e.value)
    (h3 : marshalIndent e.value = .ok t) (h4 : getName "Name" e.value = some n) :
    e.Output = .ret ("updating " ++ e.resourceType ++ ": \"" ++ n ++ "\"\n") none := by
  simp [Event.Output, CreateOption, DeleteOption, UpdateOption, h1, h2, h3, h4,
    toUnified_self, String.append_empty]

theorem output_update_equal_values_empty_diff_witness :
    marshalIndent (GoValue.service ⟨"s1", []⟩) = .ok "\x7b\n\t\"name\": \"s1\",\n\x7d" ∧
    getName "Name" (GoValue.service ⟨"s1", []⟩) = some "s1" ∧
    (Event.mk "service" UpdateOption (.service ⟨"s1", []⟩) (.service ⟨"s1", []⟩)).Output
      = .ret ("updating " ++ "service" ++ ": \"" ++ "s1" ++ "\"\n") none :=
  ⟨rfl, rfl,
    output_update_equal_values_empty_diff _ "\x7b\n\t\"name\": \"s1\",\n\x7d" "s1"
      rfl rfl rfl rfl⟩

/-- Claim C7: describing an Update record serializes the old and the new
value to indented text (with a trailing newline appended), computes the
line-based Myers edit script between the two texts, renders it as a unified
diff with header labels `remote` (old) and `local` (new), and returns the
multi-line message beginning `updating <kind>: "<name>"` — the name read from
the new value — followed by the diff block, with a nil error. -/
theorem output_update_structure (e : Event) (tOld tNew n : String)
    (h1 : e.option = UpdateOption)
    (h2 : marshalIndent e.oldValue = .ok tOld)
    (h3 : marshalIndent e.value = .ok tNew)
    (h4 : getName "Name" e.value = some n) :
    e.Output = .ret ("updating " ++ e.resourceType ++ ": \"" ++ n ++ "\"\n"
        ++ toUnified "remote" "local" (computeEdits (tOld ++ "\n") (tNew ++ "\n"))) none := by
  simp [Event.Output, CreateOption, DeleteOption, UpdateOption, h1, h2, h3, h4]

theorem output_update_structure_witness :
    marshalIndent (GoValue.route ⟨"r1", [("upstream_id", "1")]⟩)
      = .ok "\x7b\n\t\"name\": \"r1\",\n\t\"upstream_id\": \"1\",\n\x7d" ∧
    marshalIndent (GoValue.route ⟨"r1", [("upstream_id", "2")]⟩)
      = .ok "\x7b\n\t\"name\": \"r1\",\n\t\"upstream_id\": \"2\",\n\x7d" ∧
    getName "Name" (GoValue.route ⟨"r1", [("upstream_id", "2")]⟩) = some "r1" ∧
    (Event.mk "route" UpdateOption (.route ⟨"r1", [("upstream_id", "1")]⟩)
        (.route ⟨"r1", [("upstream_id", "2")]⟩)).Output
      = .ret ("updating " ++ "route" ++ ": \"" ++ "r1" ++ "\"\n"
          ++ toUnified "remote" "local"
              (computeEdits ("\x7b\n\t\"name\": \"r1\",\n\t\"upstream_id\": \"1\",\n\x7d" ++ "\n")
                ("\x7b\n\t\"name\": \"r1\",\n\t\"upstream_id\": \"2\",\n\x7d" ++ "\n"))) none :=
  ⟨rfl, rfl, rfl,
    output_update_structure _
      "\x7b\n\t\"name\": \"r1\",\n\t\"upstream_id\": \"1\",\n\x7d"
      "\x7b\n\t\"name\": \"r1\",\n\t\"upstream_id\": \"2\",\n\x7d" "r1" rfl rfl rfl rfl⟩

/-- Claim C8: describe can fail only through serialization — whenever it
returns a non-nil error, the record is an Update, the returned text is empty,
and the error is exactly the serialization error of the old or of the new
value (so Create and Delete records never return an error). -/
theorem output_error_only_from_marshal (e : Event) (er : GoError)
    (h : outErr e.Output = some er) :
    e.option = UpdateOption ∧ e.Output = OutputOutcome.ret "" (some er) ∧
      (marshalIndent e.oldValue = .error er ∨ marshalIndent e.value = .error er) := by
  unfold Event.Output at h ⊢
  split_ifs at h ⊢ with h1 h2 h3
  · cases hg : getName "Name" e.value <;> simp [hg, outErr] at h
  · cases hg : getName "Name" e.oldValue <;> simp [hg, outErr] at h
  · cases hm1 : marshalIndent e.oldValue with
    | error er1 =>
      simp only [hm1, outErr, Option.some.injEq] at h
      subst h
      exact ⟨h3, by simp [hm1], Or.inl rfl⟩
    | ok t1 =>
      cases hm2 : marshalIndent e.value with
      | error er2 =>
        simp only [hm1, hm2, outErr, Option.some.injEq] at h
        subst h
        exact ⟨h3, by simp [hm1, hm2], Or.inr rfl⟩
      | ok t2 =>
        cases hg : getName "Name" e.value <;> simp [hm1, hm2, hg, outErr] at h
  · simp [outErr] at h

theorem output_error_only_from_marshal_witness :
    outErr (Event.mk "service" UpdateOption (.unsupported "func")
        (.service ⟨"x", []⟩)).Output = some (.base "json: unsupported type: func") ∧
    ((Event.mk "service" UpdateOption (.unsupported "func") (.service ⟨"x", []⟩)).option
        = UpdateOption ∧
      (Event.mk "service" UpdateOption (.unsupported "func") (.service ⟨"x", []⟩)).Output
        = OutputOutcome.ret "" (some (.base "json: unsupported type: func")) ∧
      (marshalIndent (Event.mk "service" UpdateOption (.unsupported "func")
            (.service ⟨"x", []⟩)).oldValue
          = .error (.base "json: unsupported type: func") ∨
        marshalIndent (Event.mk "service" UpdateOption (.unsupported "func")
            (.service ⟨"x", []⟩)).value
          = .error (.base "json: unsupported type: func"))) :=
  ⟨rfl, output_error_only_from_marshal _ _ rfl⟩

end ADC
